import Mathlib

/-!
Verification of the `deviceid` library (Go) against its specification.

The embedding models the package's two source concerns:
  * pure computation: SHA-256 digest of the probe text, hex encoding, and
    the fingerprint-shape validation `IsValidSHA256`;
  * effectful orchestration: path resolution, save, and the verify state
    machine, modelled by explicit state passing over a filesystem value
    plus an environment of externally determined outcomes (home directory
    lookup, platform probe output, injected I/O errors).

Machine integers are `Nat` with explicit `% 2^32` where overflow matters.
-/

/-! ## 32-bit word arithmetic (SHA-256 works on 32-bit words) -/

/-- `2^32`, the modulus for 32-bit words. -/
def M32 : Nat := 4294967296

/-- Truncate to a 32-bit word. -/
def w32 (n : Nat) : Nat := n % M32

/-- 32-bit modular addition. -/
def add32 (a b : Nat) : Nat := (a + b) % M32

/-- Rotate a 32-bit word right by `n` bits. -/
def rotr32 (n x : Nat) : Nat := w32 ((x >>> n) ||| (x <<< (32 - n)))

/-- SHA-256 `Ch` function: `(x AND y) XOR ((NOT x) AND z)` on 32-bit words. -/
def ch32 (x y z : Nat) : Nat := (x &&& y) ^^^ ((x ^^^ 4294967295) &&& z)

/-- SHA-256 `Maj` function. -/
def maj32 (x y z : Nat) : Nat := (x &&& y) ^^^ (x &&& z) ^^^ (y &&& z)

/-- SHA-256 big sigma 0. -/
def bigSigma0 (x : Nat) : Nat := rotr32 2 x ^^^ rotr32 13 x ^^^ rotr32 22 x

/-- SHA-256 big sigma 1. -/
def bigSigma1 (x : Nat) : Nat := rotr32 6 x ^^^ rotr32 11 x ^^^ rotr32 25 x

/-- SHA-256 small sigma 0. -/
def smallSigma0 (x : Nat) : Nat := rotr32 7 x ^^^ rotr32 18 x ^^^ (x >>> 3)

/-- SHA-256 small sigma 1. -/
def smallSigma1 (x : Nat) : Nat := rotr32 17 x ^^^ rotr32 19 x ^^^ (x >>> 10)

/-! ## SHA-256

Modelled from the spec: the Go source calls `crypto/sha256.Sum256` (standard
library, not part of this repository); the spec describes it as "the 256-bit
cryptographic hash" of the raw bytes.  We embed the FIPS 180-4 SHA-256
algorithm executably over byte lists (bytes are `Nat < 256`). -/

/-- The eight SHA-256 working variables / chaining values. -/
structure Hash8 where
  a : Nat
  b : Nat
  c : Nat
  d : Nat
  e : Nat
  f : Nat
  g : Nat
  h : Nat

/-- SHA-256 round constants (FIPS 180-4 §4.2.2, written in decimal). -/
def K256 : List Nat :=
  [1116352408, 1899447441, 3049323471, 3921009573, 961987163, 1508970993,
   2453635748, 2870763221, 3624381080, 310598401, 607225278, 1426881987,
   1925078388, 2162078206, 2614888103, 3248222580, 3835390401, 4022224774,
   264347078, 604807628, 770255983, 1249150122, 1555081692, 1996064986,
   2554220882, 2821834349, 2952996808, 3210313671, 3336571891, 3584528711,
   113926993, 338241895, 666307205, 773529912, 1294757372, 1396182291,
   1695183700, 1986661051, 2177026350, 2456956037, 2730485921, 2820302411,
   3259730800, 3345764771, 3516065817, 3600352804, 4094571909, 275423344,
   430227734, 506948616, 659060556, 883997877, 958139571, 1322822218,
   1537002063, 1747873779, 1955562222, 2024104815, 2227730452, 2361852424,
   2428436474, 2756734187, 3204031479, 3329325298]

/-- SHA-256 initial hash value (FIPS 180-4 §5.3.3, written in decimal). -/
def IV256 : Hash8 :=
  ⟨1779033703, 3144134277, 1013904242, 2773480762,
   1359893119, 2600822924, 528734635, 1541459225⟩

/-- Group a byte list into big-endian 32-bit words. -/
def toWords : List Nat → List Nat
  | b0 :: b1 :: b2 :: b3 :: rest =>
      (b0 * 16777216 + b1 * 65536 + b2 * 256 + b3) :: toWords rest
  | _ => []

/-- Extend the 16 message-schedule words by `n` further words. -/
def extendW (ws : List Nat) : Nat → List Nat
  | 0 => ws
  | n + 1 =>
      let prev := extendW ws n
      let i := prev.length
      prev ++ [add32 (add32 (smallSigma1 (prev.getD (i - 2) 0)) (prev.getD (i - 7) 0))
                     (add32 (smallSigma0 (prev.getD (i - 15) 0)) (prev.getD (i - 16) 0))]

/-- One SHA-256 compression round, consuming one `(K, W)` pair. -/
def round256 (st : Hash8) (kw : Nat × Nat) : Hash8 :=
  let t1 := add32 st.h (add32 (bigSigma1 st.e) (add32 (ch32 st.e st.f st.g) (add32 kw.1 kw.2)))
  let t2 := add32 (bigSigma0 st.a) (maj32 st.a st.b st.c)
  ⟨add32 t1 t2, st.a, st.b, st.c, add32 st.d t1, st.e, st.f, st.g⟩

/-- Compress one 64-byte block into the chaining value. -/
def compressBlock (hv : Hash8) (block : List Nat) : Hash8 :=
  let ws := extendW (toWords block) 48
  let st := (K256.zip ws).foldl round256 hv
  ⟨add32 hv.a st.a, add32 hv.b st.b, add32 hv.c st.c, add32 hv.d st.d,
   add32 hv.e st.e, add32 hv.f st.f, add32 hv.g st.g, add32 hv.h st.h⟩

/-- SHA-256 padding: append `0x80`, zeros to 56 mod 64, then the bit length
as eight big-endian bytes. -/
def padMessage (msg : List Nat) : List Nat :=
  let l := msg.length
  let k := (119 - l % 64) % 64
  let lenBits := 8 * l
  msg ++ [128] ++ List.replicate k 0 ++
    (List.range 8).map (fun i => (lenBits >>> (56 - 8 * i)) % 256)

/-- Split into 64-byte chunks, driven by a precomputed chunk count. -/
def chunksGo : Nat → List Nat → List (List Nat)
  | 0, _ => []
  | n + 1, xs => xs.take 64 :: chunksGo n (xs.drop 64)

/-- The four big-endian bytes of a 32-bit word. -/
def wordBytes (w : Nat) : List Nat :=
  [(w >>> 24) % 256, (w >>> 16) % 256, (w >>> 8) % 256, w % 256]

/-- The 32 digest bytes of a final chaining value. -/
def digestBytes (hv : Hash8) : List Nat :=
  wordBytes hv.a ++ wordBytes hv.b ++ wordBytes hv.c ++ wordBytes hv.d ++
  wordBytes hv.e ++ wordBytes hv.f ++ wordBytes hv.g ++ wordBytes hv.h

/-- SHA-256 of a byte list, as its 32 digest bytes. -/
def sha256Bytes (msg : List Nat) : List Nat :=
  let padded := padMessage msg
  digestBytes ((chunksGo (padded.length / 64) padded).foldl compressBlock IV256)

/-! ## Hex encoding and UTF-8 bytes

`hex.EncodeToString` (Go standard library) emits two lowercase hex digits per
byte; `[]byte(s)` is the UTF-8 encoding of the string. -/

/-- The lowercase hex digit for a nibble: the `n`-th character of the table
`0123456789abcdef` (codepoint arithmetic: digits start at 48, letters at 97). -/
def hexDigit (n : Nat) : Char :=
  if n < 10 then Char.ofNat (48 + n) else Char.ofNat (87 + n)

/-- Lowercase hex encoding of a byte list, as Go's `hex.EncodeToString`. -/
def hexEncode (bs : List Nat) : String :=
  ⟨bs.flatMap (fun b => [hexDigit (b / 16), hexDigit (b % 16)])⟩

/-- UTF-8 encoding of one character, as a byte list. -/
def utf8EncodeChar (c : Char) : List Nat :=
  let n := c.toNat
  if n < 128 then [n]
  else if n < 2048 then [192 ||| (n >>> 6), 128 ||| (n &&& 63)]
  else if n < 65536 then
    [224 ||| (n >>> 12), 128 ||| ((n >>> 6) &&& 63), 128 ||| (n &&& 63)]
  else
    [240 ||| (n >>> 18), 128 ||| ((n >>> 12) &&& 63),
     128 ||| ((n >>> 6) &&& 63), 128 ||| (n &&& 63)]

/-- The UTF-8 bytes of a string, as Go's `[]byte(s)` conversion. -/
def strBytes (s : String) : List Nat := s.data.flatMap utf8EncodeChar

/-! ## Fingerprint-shape validation

Embeds `IsValidSHA256` (`src/deviceid.go` lines 155-165).  Go's `len(s)` is
the UTF-8 byte length, and the loop ranges over the runes of `s`. -/

/-- One rune check from the loop body of `IsValidSHA256`:
`(r >= '0' && r <= '9') || (r >= 'a' && r <= 'f')`. -/
def isHexRune (r : Char) : Bool :=
  (decide ('0' ≤ r) && decide (r ≤ '9')) || (decide ('a' ≤ r) && decide (r ≤ 'f'))

/-- `IsValidSHA256` checks if a string is a valid SHA256 hash:
byte length 64, every rune in `[0-9a-f]`. -/
def IsValidSHA256 (s : String) : Bool :=
  if s.utf8ByteSize ≠ 64 then false
  else s.data.all isHexRune

/-! ## Data model (`Config`, `Manager`, `NewManager`) -/

/-- `DefaultIDFileName`: the name of the file where the device ID is stored. -/
def DefaultIDFileName : String := ".device_id"

/-- `Config` holds the configuration for device ID management. -/
structure Config where
  StorageDir : String
  IDFileName : String

/-- `Manager` handles device ID operations. -/
structure Manager where
  config : Config

/-- `NewManager` creates a new device ID manager with the given configuration,
defaulting the file name when it is empty. -/
def NewManager (config : Config) : Manager :=
  if config.IDFileName = "" then ⟨{ config with IDFileName := DefaultIDFileName }⟩
  else ⟨config⟩

/-! ## Effect model

The Go code touches the outside world through `os.UserHomeDir`, the platform
probe command (`getSystemInfo`), `os.ReadFile`, `os.MkdirAll` and
`os.WriteFile`.  We model the filesystem contents as explicit state (`FS`) and
the externally determined outcomes (probe output, home directory, injected
I/O failures) as an environment (`Env`) fixed for the call. -/

/-- The error kinds of the spec (§7).  The Go code wraps causes with
`fmt.Errorf`; each constructor carries the underlying cause message. -/
inductive DevErr where
  | pathResolution (msg : String)
  | probe (msg : String)
  | storage (msg : String)
  | invalidFormat
  deriving Repr, DecidableEq

/-- Outcome of `os.ReadFile`: content, absent (`os.IsNotExist`), or another
I/O failure. -/
inductive ReadResult where
  | ok (content : String)
  | notExist
  | otherErr (msg : String)
  deriving Repr, DecidableEq

/-- Filesystem state: file contents by path, and which directories exist. -/
structure FS where
  files : String → Option String
  dirs : String → Bool

/-- Environment of externally determined outcomes for one call. -/
structure Env where
  /-- `os.UserHomeDir` result. -/
  homeDir : Except String String
  /-- Output of the platform probe command in `getSystemInfo`. -/
  sysInfo : Except String String
  /-- Injected non-absent read failure at a path (e.g. permission denied). -/
  readErr : String → Option String
  /-- Injected `os.MkdirAll` failure at a directory. -/
  mkdirErr : String → Option String
  /-- Injected `os.WriteFile` failure at a path. -/
  writeErr : String → Option String

/-- Modelled from the spec: Go's `filepath.Join` (standard library, not in
this repository) joins path elements with the separator; the spec's example
gives `/tmp/custom/my-id` for base `/tmp/custom` and name `my-id`. -/
def pathJoin (a b : String) : String := a ++ "/" ++ b

/-- Modelled from the spec: Go's `filepath.Dir` (standard library, not in
this repository) returns all but the last path element. -/
def dirname (s : String) : String :=
  String.intercalate "/" (s.splitOn "/").dropLast

/-- `os.ReadFile` under the effect model: an injected failure beats content;
otherwise present files read their content and missing files signal absent. -/
def readFile (env : Env) (fs : FS) (path : String) : ReadResult :=
  match env.readErr path with
  | some e => .otherErr e
  | none =>
      match fs.files path with
      | some c => .ok c
      | none => .notExist

/-- `getSystemInfo` retrieves system-specific information: it runs the
OS-specific probe command and returns its raw output, or a wrapped failure. -/
def getSystemInfo (env : Env) : Except DevErr String :=
  match env.sysInfo with
  | .error e => .error (.probe e)
  | .ok output => .ok output

/-- `GenerateDeviceID` creates a new device ID based on system information:
SHA-256 of the raw probe bytes, hex-encoded.  The manager's configuration is
not consulted. -/
def GenerateDeviceID (_m : Manager) (env : Env) : Except DevErr String :=
  match getSystemInfo env with
  | .error e => .error e
  | .ok info => .ok (hexEncode (sha256Bytes (strBytes info)))

/-- `GetDeviceIDPath` returns the full path where the device ID file should
be stored: `StorageDir` verbatim when set, else `<home>/.parity`, joined with
the configured file name. -/
def GetDeviceIDPath (m : Manager) (env : Env) : Except DevErr String :=
  if m.config.StorageDir ≠ "" then
    .ok (pathJoin m.config.StorageDir m.config.IDFileName)
  else
    match env.homeDir with
    | .error e => .error (.pathResolution e)
    | .ok home => .ok (pathJoin (pathJoin home ".parity") m.config.IDFileName)

/-- `SaveDeviceID` stores the device ID in the configured location: validate
the format, resolve the path, create the directory, write the file. -/
def SaveDeviceID (m : Manager) (env : Env) (fs : FS) (deviceID : String) :
    Except DevErr Unit × FS :=
  if !IsValidSHA256 deviceID then (.error .invalidFormat, fs)
  else
    match GetDeviceIDPath m env with
    | .error e => (.error e, fs)
    | .ok path =>
        let dir := dirname path
        match env.mkdirErr dir with
        | some e => (.error (.storage e), fs)
        | none =>
            let fs1 : FS := { fs with dirs := fun d => d == dir || fs.dirs d }
            match env.writeErr path with
            | some e => (.error (.storage e), fs1)
            | none =>
                (.ok (),
                 { fs1 with files := fun p => if p == path then some deviceID else fs1.files p })

/-- `VerifyDeviceID` checks for an existing device ID and generates a new one
if needed: read the file; if absent or malformed, regenerate and save; if
valid, return the stored value; propagate any other read failure. -/
def VerifyDeviceID (m : Manager) (env : Env) (fs : FS) :
    Except DevErr String × FS :=
  match GetDeviceIDPath m env with
  | .error e => (.error e, fs)
  | .ok path =>
      match readFile env fs path with
      | .otherErr e => (.error (.storage e), fs)
      | .notExist =>
          match GenerateDeviceID m env with
          | .error e => (.error e, fs)
          | .ok newID =>
              match SaveDeviceID m env fs newID with
              | (.error e, fs1) => (.error e, fs1)
              | (.ok _, fs1) => (.ok newID, fs1)
      | .ok content =>
          if !IsValidSHA256 content then
            match GenerateDeviceID m env with
            | .error e => (.error e, fs)
            | .ok newID =>
                match SaveDeviceID m env fs newID with
                | (.error e, fs1) => (.error e, fs1)
                | (.ok _, fs1) => (.ok newID, fs1)
          else (.ok content, fs)

/-! ## Supporting lemmas -/

theorem isHexRune_utf8Size {c : Char} (h : isHexRune c = true) : c.utf8Size = 1 := by
  have hle : c.val ≤ 0x7F := by
    simp only [isHexRune, Bool.or_eq_true, Bool.and_eq_true, decide_eq_true_eq] at h
    rcases h with ⟨_, h2⟩ | ⟨_, h2⟩
    · exact UInt32.le_trans (show c.val ≤ (Char.val (Char.ofNat 57)) from h2) (by decide)
    · exact UInt32.le_trans (show c.val ≤ (Char.val (Char.ofNat 102)) from h2) (by decide)
  simp [Char.utf8Size, hle]

theorem utf8Len_of_ascii {l : List Char} (h : ∀ c ∈ l, c.utf8Size = 1) :
    String.utf8Len l = l.length := by
  induction l with
  | nil => rfl
  | cons c cs ih =>
      have hc := h c (List.mem_cons_self ..)
      simp [String.utf8Len_cons, hc, ih fun d hd => h d (List.mem_cons_of_mem _ hd)]

/-- `IsValidSHA256` holds exactly when the string has 64 characters, all of
them lowercase hex digits.  (The byte-length check in the source coincides
with the character count because hex digits are ASCII, and any non-ASCII
character fails the rune check anyway.) -/
theorem IsValidSHA256_eq_true_iff (s : String) :
    IsValidSHA256 s = true ↔ s.length = 64 ∧ ∀ c ∈ s.data, isHexRune c = true := by
  obtain ⟨l⟩ := s
  simp only [IsValidSHA256, String.utf8ByteSize_mk, String.length]
  constructor
  · intro h
    split at h
    · exact absurd h (by simp)
    · next hlen =>
        simp only [List.all_eq_true] at h
        have : String.utf8Len l = l.length :=
          utf8Len_of_ascii fun c hc => isHexRune_utf8Size (h c hc)
        exact ⟨by omega, h⟩
  · rintro ⟨hlen, hall⟩
    have : String.utf8Len l = l.length :=
      utf8Len_of_ascii fun c hc => isHexRune_utf8Size (hall c hc)
    rw [if_neg (by omega)]
    simpa [List.all_eq_true] using hall

theorem hexDigit_hexRune : ∀ n < 16, isHexRune (hexDigit n) = true := by decide

theorem wordBytes_lt {w b : Nat} (h : b ∈ wordBytes w) : b < 256 := by
  simp only [wordBytes, List.mem_cons, List.not_mem_nil, or_false] at h
  rcases h with h | h | h | h <;> subst h <;> exact Nat.mod_lt _ (by norm_num)

theorem digestBytes_lt {hv : Hash8} {b : Nat} (h : b ∈ digestBytes hv) : b < 256 := by
  simp only [digestBytes, List.mem_append, or_assoc] at h
  rcases h with h | h | h | h | h | h | h | h <;> exact wordBytes_lt h

theorem digestBytes_length (hv : Hash8) : (digestBytes hv).length = 32 := by
  simp [digestBytes, wordBytes]

theorem hexEncode_data_length (bs : List Nat) :
    (hexEncode bs).data.length = 2 * bs.length := by
  simp only [hexEncode]
  induction bs with
  | nil => rfl
  | cons b rest ih => simp [ih]; ring

theorem hexEncode_length (bs : List Nat) : (hexEncode bs).length = 2 * bs.length :=
  hexEncode_data_length bs

theorem hexEncode_all_hex {bs : List Nat} (h : ∀ b ∈ bs, b < 256) :
    ∀ c ∈ (hexEncode bs).data, isHexRune c = true := by
  intro c hc
  simp only [hexEncode, List.mem_flatMap] at hc
  obtain ⟨b, hb, hcb⟩ := hc
  have hblt := h b hb
  simp only [List.mem_cons, List.not_mem_nil, or_false] at hcb
  rcases hcb with rfl | rfl
  · exact hexDigit_hexRune _ (Nat.div_lt_of_lt_mul (by omega))
  · exact hexDigit_hexRune _ (Nat.mod_lt _ (by norm_num))

/-- Every identifier produced by the digest generator is a valid fingerprint:
64 lowercase hex characters. -/
theorem generated_valid (info : String) :
    IsValidSHA256 (hexEncode (sha256Bytes (strBytes info))) = true := by
  rw [IsValidSHA256_eq_true_iff]
  have hlen : (sha256Bytes (strBytes info)).length = 32 := by
    rw [sha256Bytes]
    exact digestBytes_length _
  have hlt : ∀ b ∈ sha256Bytes (strBytes info), b < 256 := by
    rw [sha256Bytes]
    intro b hb
    exact digestBytes_lt hb
  constructor
  · rw [hexEncode_length, hlen]
  · exact hexEncode_all_hex hlt

/-! ## Sample configurations and states (used by the concrete instances) -/

/-- The spec's example configuration: `/tmp/custom` with file name `my-id`. -/
def cfg0 : Config := { StorageDir := "/tmp/custom", IDFileName := "my-id" }

/-- Sample manager over `cfg0`. -/
def m0 : Manager := NewManager cfg0

/-- The resolved path of `m0`. -/
def path0 : String := "/tmp/custom/my-id"

/-- A benign environment: probe output `"abc"`, no injected failures. -/
def env0 : Env :=
  { homeDir := .ok "/home/user", sysInfo := .ok "abc",
    readErr := fun _ => none, mkdirErr := fun _ => none, writeErr := fun _ => none }

/-- An environment whose read of `path0` fails with a permission error. -/
def envR : Env :=
  { env0 with readErr := fun p => if p == path0 then some "permission denied" else none }

/-- Fresh empty filesystem. -/
def fs0 : FS := { files := fun _ => none, dirs := fun _ => false }

/-- The 64-character all-zeros fingerprint. -/
def zeros64 : String := ⟨List.replicate 64 '0'⟩

/-- Filesystem already holding the valid fingerprint `zeros64` at `path0`. -/
def fsValid : FS :=
  { files := fun p => if p == path0 then some zeros64 else none, dirs := fun _ => false }

/-- Filesystem holding `zeros64` with a trailing newline at `path0`. -/
def fsTrailing : FS :=
  { files := fun p => if p == path0 then some (zeros64 ++ "\n") else none,
    dirs := fun _ => false }

/-! ## The claims -/

/-- C4: `IsValidSHA256 s` is true iff `s` has length 64 and every character
is a digit or a lowercase `a`-`f`; in particular it is false for every
string of another length, false whenever any character (e.g. an uppercase
`A`-`F`) falls outside `[0-9a-f]`, and true on the 64-character string of
all zeros. -/
theorem C4_IsValidSHA256_charact (s : String) :
    (IsValidSHA256 s = true ↔
      s.length = 64 ∧ ∀ c ∈ s.data, ('0' ≤ c ∧ c ≤ '9') ∨ ('a' ≤ c ∧ c ≤ 'f')) ∧
    IsValidSHA256 zeros64 = true := by
  refine ⟨(IsValidSHA256_eq_true_iff s).trans ?_, by decide⟩
  simp only [isHexRune, Bool.or_eq_true, Bool.and_eq_true, decide_eq_true_eq]

/-- C5: with probe output `info`, `GenerateDeviceID` returns exactly the
lowercase hex encoding of the SHA-256 digest of the raw UTF-8 bytes of
`info` (no normalization); the result is independent of the manager and
deterministic in `info`, and every returned identifier is a valid
fingerprint. -/
theorem C5_generate_hashes_probe (m m' : Manager) (env env' : Env) (info : String)
    (h : env.sysInfo = .ok info) (h' : env'.sysInfo = .ok info) :
    GenerateDeviceID m env = .ok (hexEncode (sha256Bytes (strBytes info))) ∧
    GenerateDeviceID m' env' = GenerateDeviceID m env ∧
    ∀ id, GenerateDeviceID m env = .ok id → IsValidSHA256 id = true := by
  refine ⟨by simp [GenerateDeviceID, getSystemInfo, h], by simp [GenerateDeviceID, getSystemInfo, h, h'], ?_⟩
  intro id hid
  simp only [GenerateDeviceID, getSystemInfo, h, Except.ok.injEq] at hid
  exact hid ▸ generated_valid info

/-- Witness for C5 at the concrete benign environment. -/
theorem C5_witness :
    env0.sysInfo = Except.ok "abc" ∧
    (GenerateDeviceID m0 env0 = .ok (hexEncode (sha256Bytes (strBytes "abc"))) ∧
     GenerateDeviceID m0 env0 = GenerateDeviceID m0 env0 ∧
     ∀ id, GenerateDeviceID m0 env0 = .ok id → IsValidSHA256 id = true) :=
  ⟨rfl, C5_generate_hashes_probe m0 m0 env0 env0 "abc" rfl rfl⟩

/-- C9: `GenerateDeviceID` does not read the manager's configuration: any
two managers, however configured, produce the same identifier from the same
probe output. -/
theorem C9_generate_config_indep (cfg1 cfg2 : Config) (env : Env) :
    GenerateDeviceID (NewManager cfg1) env = GenerateDeviceID (NewManager cfg2) env := rfl

/-- C6: `SaveDeviceID` rejects a malformed fingerprint with the invalid
format error before touching the filesystem: the state (files and
directories alike) is returned unchanged. -/
theorem C6_save_rejects_invalid (m : Manager) (env : Env) (fs : FS) (id : String)
    (h : IsValidSHA256 id = false) :
    SaveDeviceID m env fs id = (.error .invalidFormat, fs) := by
  simp [SaveDeviceID, h]

/-- Witness for C6 at the spec's example `"abc"`. -/
theorem C6_witness :
    IsValidSHA256 "abc" = false ∧
    SaveDeviceID m0 env0 fs0 "abc" = (.error .invalidFormat, fs0) :=
  ⟨by decide, C6_save_rejects_invalid m0 env0 fs0 "abc" (by decide)⟩

/-- C2: when the stored content is a valid fingerprint, `VerifyDeviceID`
returns exactly that content and leaves the filesystem untouched; the
conclusion holds for every probe/mkdir/write behaviour, so no probing,
hashing or writing is involved. -/
theorem C2_verify_valid_file (m : Manager) (env : Env) (fs : FS) (path c : String)
    (hpath : GetDeviceIDPath m env = .ok path)
    (hread : readFile env fs path = .ok c)
    (hvalid : IsValidSHA256 c = true) :
    VerifyDeviceID m env fs = (.ok c, fs) := by
  simp [VerifyDeviceID, hpath, hread, hvalid]

/-- Witness for C2: a stored all-zeros fingerprint is returned unchanged. -/
theorem C2_witness :
    (GetDeviceIDPath m0 env0 = .ok path0 ∧
     readFile env0 fsValid path0 = .ok zeros64 ∧
     IsValidSHA256 zeros64 = true) ∧
    VerifyDeviceID m0 env0 fsValid = (.ok zeros64, fsValid) :=
  ⟨⟨rfl, rfl, by decide⟩, C2_verify_valid_file m0 env0 fsValid path0 zeros64 rfl rfl (by decide)⟩

/-- C3: a read failure other than "absent" is propagated as a storage
error with its cause; the filesystem is untouched, and the conclusion holds
for every probe behaviour, so no regeneration is attempted and no
identifier is returned. -/
theorem C3_read_error_propagated (m : Manager) (env : Env) (fs : FS) (path e : String)
    (hpath : GetDeviceIDPath m env = .ok path)
    (hread : readFile env fs path = .otherErr e) :
    VerifyDeviceID m env fs = (.error (.storage e), fs) := by
  simp [VerifyDeviceID, hpath, hread]

/-- Witness for C3 at a permission-denied read. -/
theorem C3_witness :
    (GetDeviceIDPath m0 envR = .ok path0 ∧
     readFile envR fs0 path0 = .otherErr "permission denied") ∧
    VerifyDeviceID m0 envR fs0 = (.error (.storage "permission denied"), fs0) :=
  ⟨⟨rfl, rfl⟩, C3_read_error_propagated m0 envR fs0 path0 "permission denied" rfl rfl⟩

/-- C7: path resolution: `StorageDir` is used verbatim when set, else the
home directory plus `.parity`; the file name defaults to `.device_id` when
empty at construction; and the call fails (with a path-resolution error)
exactly when `StorageDir` is empty and the home directory is undeterminable. -/
theorem C7_path_resolution (config : Config) (env : Env) :
    (GetDeviceIDPath (NewManager config) env =
      (let fname := if config.IDFileName = "" then DefaultIDFileName else config.IDFileName
       if config.StorageDir ≠ "" then .ok (pathJoin config.StorageDir fname)
       else
         match env.homeDir with
         | .ok home => .ok (pathJoin (pathJoin home ".parity") fname)
         | .error e => .error (.pathResolution e))) ∧
    ((∃ e, GetDeviceIDPath (NewManager config) env = .error e) ↔
      config.StorageDir = "" ∧ ∃ e, env.homeDir = .error e) := by
  have hname : (NewManager config).config.IDFileName =
      (if config.IDFileName = "" then DefaultIDFileName else config.IDFileName) := by
    by_cases h : config.IDFileName = "" <;> simp [NewManager, h]
  have hdir : (NewManager config).config.StorageDir = config.StorageDir := by
    by_cases h : config.IDFileName = "" <;> simp [NewManager, h]
  constructor
  · by_cases hs : config.StorageDir = ""
    · cases hh : env.homeDir <;> simp [GetDeviceIDPath, hname, hdir, hs, hh]
    · simp [GetDeviceIDPath, hname, hdir, hs]
  · by_cases hs : config.StorageDir = ""
    · cases hh : env.homeDir <;> simp [GetDeviceIDPath, hdir, hs, hh]
    · simp [GetDeviceIDPath, hdir, hs]

/-- A successful save wrote the identifier at the resolved path (and the
identifier passed validation, and no injected failures were hit). -/
theorem SaveDeviceID_ok_files {m : Manager} {env : Env} {fs : FS} {id path : String} {fs1 : FS}
    (hpath : GetDeviceIDPath m env = .ok path)
    (h : SaveDeviceID m env fs id = (.ok (), fs1)) :
    fs1.files path = some id ∧ IsValidSHA256 id = true := by
  cases hv : IsValidSHA256 id with
  | false => simp [SaveDeviceID, hv] at h
  | true =>
      simp only [SaveDeviceID, hv, Bool.not_true, Bool.false_eq_true, if_false, hpath] at h
      cases hmk : env.mkdirErr (dirname path) with
      | some e => rw [hmk] at h; simp at h
      | none =>
          rw [hmk] at h
          cases hwr : env.writeErr path with
          | some e => rw [hwr] at h; simp at h
          | none =>
              rw [hwr] at h
              obtain ⟨-, rfl⟩ := Prod.mk.injEq .. ▸ h
              simp

/-- C1: when the read signals "absent", or succeeds with content failing the
fingerprint validation, `VerifyDeviceID` regenerates: a probe failure is
fatal with the triggering error and no identifier; a save failure is fatal
with the triggering error and no identifier; and on success the freshly
generated identifier is persisted at the path and returned. -/
theorem C1_verify_regenerates (m : Manager) (env : Env) (fs : FS) (path : String)
    (hpath : GetDeviceIDPath m env = .ok path)
    (hread : readFile env fs path = .notExist ∨
             ∃ c, readFile env fs path = .ok c ∧ IsValidSHA256 c = false) :
    (∀ e, GenerateDeviceID m env = .error e → VerifyDeviceID m env fs = (.error e, fs)) ∧
    ∀ newID, GenerateDeviceID m env = .ok newID →
      (∀ e fs1, SaveDeviceID m env fs newID = (.error e, fs1) →
          VerifyDeviceID m env fs = (.error e, fs1)) ∧
      ∀ fs1, SaveDeviceID m env fs newID = (.ok (), fs1) →
          VerifyDeviceID m env fs = (.ok newID, fs1) ∧ fs1.files path = some newID := by
  have hbody : VerifyDeviceID m env fs =
      (match GenerateDeviceID m env with
       | .error e => (.error e, fs)
       | .ok newID =>
           match SaveDeviceID m env fs newID with
           | (.error e, fs1) => (.error e, fs1)
           | (.ok _, fs1) => (.ok newID, fs1)) := by
    rcases hread with hread | ⟨c, hread, hc⟩
    · simp [VerifyDeviceID, hpath, hread]
    · simp [VerifyDeviceID, hpath, hread, hc]
  refine ⟨fun e hg => by rw [hbody, hg], fun newID hg => ⟨fun e fs1 hsv => ?_, fun fs1 hsv => ?_⟩⟩
  · rw [hbody, hg]; dsimp only; rw [hsv]
  · refine ⟨?_, (SaveDeviceID_ok_files hpath hsv).1⟩
    rw [hbody, hg]; dsimp only; rw [hsv]

/-- Witness for C1: fresh empty filesystem, benign environment. -/
theorem C1_witness :
    (GetDeviceIDPath m0 env0 = .ok path0 ∧ readFile env0 fs0 path0 = .notExist) ∧
    ((∀ e, GenerateDeviceID m0 env0 = .error e → VerifyDeviceID m0 env0 fs0 = (.error e, fs0)) ∧
     ∀ newID, GenerateDeviceID m0 env0 = .ok newID →
       (∀ e fs1, SaveDeviceID m0 env0 fs0 newID = (.error e, fs1) →
           VerifyDeviceID m0 env0 fs0 = (.error e, fs1)) ∧
       ∀ fs1, SaveDeviceID m0 env0 fs0 newID = (.ok (), fs1) →
           VerifyDeviceID m0 env0 fs0 = (.ok newID, fs1) ∧ fs1.files path0 = some newID) :=
  ⟨⟨rfl, rfl⟩, C1_verify_regenerates m0 env0 fs0 path0 rfl (Or.inl rfl)⟩

/-- A read that returned content had no injected failure and found the file. -/
theorem readFile_ok_elim {env : Env} {fs : FS} {path c : String}
    (h : readFile env fs path = .ok c) :
    env.readErr path = none ∧ fs.files path = some c := by
  unfold readFile at h
  cases he : env.readErr path with
  | some e => rw [he] at h; simp at h
  | none =>
      rw [he] at h
      cases hf : fs.files path with
      | some d => rw [hf] at h; simp at h; exact ⟨rfl, by rw [h]⟩
      | none => rw [hf] at h; simp at h

/-- A read that signalled "absent" had no injected failure. -/
theorem readFile_notExist_elim {env : Env} {fs : FS} {path : String}
    (h : readFile env fs path = .notExist) : env.readErr path = none := by
  unfold readFile at h
  cases he : env.readErr path with
  | some e => rw [he] at h; simp at h
  | none => rfl

/-- A call on a state that stores a valid fingerprint at the resolved path
(and reads it without failure) returns it and changes nothing. -/
theorem verify_of_stored {m : Manager} {env : Env} {fs1 : FS} {path id1 : String}
    (hpath : GetDeviceIDPath m env = .ok path)
    (hrerr : env.readErr path = none)
    (hfiles : fs1.files path = some id1)
    (hvalid : IsValidSHA256 id1 = true) :
    VerifyDeviceID m env fs1 = (.ok id1, fs1) := by
  simp [VerifyDeviceID, hpath, readFile, hrerr, hfiles, hvalid]

/-- C8: after any successful `VerifyDeviceID` call (in particular the first
one on a fresh empty directory), the file at the resolved path holds exactly
the returned identifier, the identifier is a valid fingerprint, and a
repeated call returns the same identifier with the state unchanged: the
`FileValid` path. -/
theorem C8_verify_idempotent (m : Manager) (env : Env) (fs : FS) (path id1 : String) (fs1 : FS)
    (hpath : GetDeviceIDPath m env = .ok path)
    (h1 : VerifyDeviceID m env fs = (.ok id1, fs1)) :
    fs1.files path = some id1 ∧ IsValidSHA256 id1 = true ∧
    VerifyDeviceID m env fs1 = (.ok id1, fs1) := by
  simp only [VerifyDeviceID, hpath] at h1
  cases hrf : readFile env fs path with
  | otherErr e => rw [hrf] at h1; simp at h1
  | notExist =>
      rw [hrf] at h1
      dsimp only at h1
      have hrerr := readFile_notExist_elim hrf
      cases hg : GenerateDeviceID m env with
      | error e => rw [hg] at h1; simp at h1
      | ok newID =>
          rw [hg] at h1
          dsimp only at h1
          cases hsv : SaveDeviceID m env fs newID with
          | mk res fsS =>
              rw [hsv] at h1
              cases res with
              | error e => simp at h1
              | ok u =>
                  cases u
                  simp only [Prod.mk.injEq, Except.ok.injEq] at h1
                  obtain ⟨rfl, rfl⟩ := h1
                  obtain ⟨hfiles, hvalid⟩ := SaveDeviceID_ok_files hpath hsv
                  exact ⟨hfiles, hvalid, verify_of_stored hpath hrerr hfiles hvalid⟩
  | ok c =>
      rw [hrf] at h1
      dsimp only at h1
      obtain ⟨hrerr, hfc⟩ := readFile_ok_elim hrf
      cases hv : IsValidSHA256 c with
      | true =>
          rw [hv] at h1
          simp only [Bool.not_true, Bool.false_eq_true, if_false, Prod.mk.injEq,
            Except.ok.injEq] at h1
          obtain ⟨rfl, rfl⟩ := h1
          exact ⟨hfc, hv, verify_of_stored hpath hrerr hfc hv⟩
      | false =>
          rw [hv] at h1
          simp only [Bool.not_false, if_true] at h1
          cases hg : GenerateDeviceID m env with
          | error e => rw [hg] at h1; simp at h1
          | ok newID =>
              rw [hg] at h1
              dsimp only at h1
              cases hsv : SaveDeviceID m env fs newID with
              | mk res fsS =>
                  rw [hsv] at h1
                  cases res with
                  | error e => simp at h1
                  | ok u =>
                      cases u
                      simp only [Prod.mk.injEq, Except.ok.injEq] at h1
                      obtain ⟨rfl, rfl⟩ := h1
                      obtain ⟨hfiles, hvalid⟩ := SaveDeviceID_ok_files hpath hsv
                      exact ⟨hfiles, hvalid, verify_of_stored hpath hrerr hfiles hvalid⟩

/-- Appending any nonempty suffix to a valid fingerprint breaks validity:
the byte length leaves 64. -/
theorem IsValidSHA256_append_false {v extra : String}
    (hv : IsValidSHA256 v = true) (he : extra ≠ "") :
    IsValidSHA256 (v ++ extra) = false := by
  have hsize : v.utf8ByteSize = 64 := by
    by_contra h
    rw [IsValidSHA256, if_pos h] at hv
    exact Bool.false_ne_true hv
  obtain ⟨lv⟩ := v
  obtain ⟨le⟩ := extra
  have hle : le ≠ [] := fun h => he (by rw [h])
  have hpos : 0 < String.utf8Len le := by
    rcases Nat.eq_zero_or_pos (String.utf8Len le) with h | h
    · exact absurd (String.utf8Len_eq_zero.mp h) hle
    · exact h
  have happ : (String.mk lv ++ String.mk le) = String.mk (lv ++ le) := rfl
  have hne : (String.mk (lv ++ le)).utf8ByteSize ≠ 64 := by
    rw [String.utf8ByteSize_mk, String.utf8Len_append]
    rw [String.utf8ByteSize_mk] at hsize
    omega
  rw [happ, IsValidSHA256, if_pos hne]

/-- With a valid identifier, a resolved path and no injected failures, the
save succeeds and records the directory and the file. -/
theorem SaveDeviceID_success {m : Manager} {env : Env} (fs : FS) {id path : String}
    (hpath : GetDeviceIDPath m env = .ok path)
    (hvalid : IsValidSHA256 id = true)
    (hmk : env.mkdirErr (dirname path) = none)
    (hwr : env.writeErr path = none) :
    SaveDeviceID m env fs id =
      (.ok (), { files := fun p => if p == path then some id else fs.files p,
                 dirs := fun d => d == dirname path || fs.dirs d }) := by
  simp [SaveDeviceID, hvalid, hpath, hmk, hwr]

/-- C10: stored content is validated without trimming: a valid fingerprint
followed by any extra byte (e.g. a trailing newline) is treated as corrupt,
so under a working probe and store the call regenerates, overwrites the file
with the fresh identifier, and returns it rather than the stored prefix. -/
theorem C10_no_trimming (m : Manager) (env : Env) (fs : FS) (path v extra info : String)
    (hpath : GetDeviceIDPath m env = .ok path)
    (hv : IsValidSHA256 v = true)
    (he : extra ≠ "")
    (hread : readFile env fs path = .ok (v ++ extra))
    (hinfo : env.sysInfo = .ok info)
    (hmk : env.mkdirErr (dirname path) = none)
    (hwr : env.writeErr path = none) :
    IsValidSHA256 (v ++ extra) = false ∧
    ∃ fs1, VerifyDeviceID m env fs = (.ok (hexEncode (sha256Bytes (strBytes info))), fs1) ∧
      fs1.files path = some (hexEncode (sha256Bytes (strBytes info))) := by
  have hbad := IsValidSHA256_append_false hv he
  have hgen : GenerateDeviceID m env = .ok (hexEncode (sha256Bytes (strBytes info))) := by
    simp [GenerateDeviceID, getSystemInfo, hinfo]
  have hsave := SaveDeviceID_success fs hpath (generated_valid info) hmk hwr
  refine ⟨hbad,
    { files := fun p =>
        if p == path then some (hexEncode (sha256Bytes (strBytes info))) else fs.files p,
      dirs := fun d => d == dirname path || fs.dirs d }, ?_, ?_⟩
  · simp only [VerifyDeviceID, hpath, hread]
    rw [hbad]
    simp only [Bool.not_false, if_true]
    rw [hgen]
    dsimp only
    rw [hsave]
  · simp

/-- Witness for C10: `zeros64` with a trailing newline is regenerated. -/
theorem C10_witness :
    (GetDeviceIDPath m0 env0 = .ok path0 ∧ IsValidSHA256 zeros64 = true ∧
     ("\n" : String) ≠ "" ∧ readFile env0 fsTrailing path0 = .ok (zeros64 ++ "\n") ∧
     env0.sysInfo = .ok "abc" ∧ env0.mkdirErr (dirname path0) = none ∧
     env0.writeErr path0 = none) ∧
    (IsValidSHA256 (zeros64 ++ "\n") = false ∧
     ∃ fs1, VerifyDeviceID m0 env0 fsTrailing =
         (.ok (hexEncode (sha256Bytes (strBytes "abc"))), fs1) ∧
       fs1.files path0 = some (hexEncode (sha256Bytes (strBytes "abc")))) :=
  ⟨⟨rfl, by decide, by decide, rfl, rfl, rfl, rfl⟩,
   C10_no_trimming m0 env0 fsTrailing path0 zeros64 "\n" "abc" rfl (by decide) (by decide)
     rfl rfl rfl rfl⟩

/-- Witness for C8 at a state already holding a valid fingerprint. -/
theorem C8_witness :
    (GetDeviceIDPath m0 env0 = .ok path0 ∧
     VerifyDeviceID m0 env0 fsValid = (.ok zeros64, fsValid)) ∧
    (fsValid.files path0 = some zeros64 ∧ IsValidSHA256 zeros64 = true ∧
     VerifyDeviceID m0 env0 fsValid = (.ok zeros64, fsValid)) :=
  ⟨⟨rfl, rfl⟩, C8_verify_idempotent m0 env0 fsValid path0 zeros64 fsValid rfl rfl⟩
